import Mathlib

/-!
Shallow embedding of the GraphQL `Mutation` resolvers of the sick-fits
backend (`src/resolvers/Mutation.js`), with the database modelled as lists
of rows and each resolver as a pure function returning its result, the list
of database write calls it issues, and the cookies it sets.  External
libraries (bcryptjs, jsonwebtoken) are passed in as function parameters;
JavaScript runtime failures (throw of an Error versus a TypeError from a
null or undefined property access) are distinguished by the error type.
-/

namespace SickFits

/-- Database row for a `User`, as used by the resolvers. -/
structure User where
  id : String
  name : String
  email : String
  password : String
  permissions : List String
  resetToken : Option String
  resetTokenExpiry : Option Int
deriving Repr, DecidableEq

/-- Database row for an `Item`; only the fields the resolvers read. -/
structure Item where
  id : String
  title : String
  userId : String
deriving Repr, DecidableEq

/-- Database row for a `CartItem`: a user, an item and a quantity. -/
structure CartItem where
  id : String
  userId : String
  itemId : String
  quantity : Int
deriving Repr, DecidableEq

/-- The database state: the three tables the resolvers touch. -/
structure DB where
  users : List User
  items : List Item
  cartItems : List CartItem
deriving Repr, DecidableEq

/-- The request context: `ctx.request.userId` (set by the JWT cookie
middleware when a token is present) and `ctx.request.user` (the populated
user record, present only for signed-in requests). -/
structure Request where
  userId : Option String
  user : Option User
deriving Repr, DecidableEq

/-- A cookie set on the response via `ctx.response.cookie`. -/
structure Cookie where
  name : String
  value : String
  httpOnly : Bool
  maxAge : Int
deriving Repr, DecidableEq

/-- A JavaScript runtime error: either `throw new Error(msg)` or a
TypeError from reading a property of `null`/`undefined` (recorded with the
expression that failed). -/
inductive JsError where
  | thrown (msg : String)
  | nullAccess (expr : String)
deriving Repr, DecidableEq

/-- A database write call issued by a resolver through the generated
Prisma client (`ctx.db.mutation.*`), with the payload the code passes. -/
inductive DbWrite where
  | createUser (u : User)
  | deleteItem (whereId : String)
  | updateCartItem (whereId : String) (quantity : Int)
  | createCartItem (newId : String) (userId : String) (itemId : String)
  | updateUserPermissions (whereId : String) (permissions : List String)
  | updateUserReset (whereEmail : String) (resetToken : String) (resetTokenExpiry : Int)
  | updateUserPassword (whereEmail : String) (password : String)
deriving Repr, DecidableEq

deriving instance DecidableEq for Except

/-- The outcome of running a resolver: its returned value or error, the
database write calls it issued, and the cookies it set. -/
structure Outcome (α : Type) where
  res : Except JsError α
  writes : List DbWrite
  cookies : List Cookie
deriving Repr, DecidableEq

/-- Whether the outcome failed with a `throw new Error(msg)`. -/
def Outcome.failedThrown {α : Type} (o : Outcome α) : Bool :=
  match o.res with
  | .error (.thrown _) => true
  | _ => false

/-- Whether the outcome failed with a TypeError from a null or undefined
property access. -/
def Outcome.failedNullAccess {α : Type} (o : Outcome α) : Bool :=
  match o.res with
  | .error (.nullAccess _) => true
  | _ => false

/-- Prisma query `ctx.db.query.user({ where: { email } })`. -/
def userByEmail (db : DB) (email : String) : Option User :=
  db.users.find? (fun u => u.email == email)

/-- Prisma query `ctx.db.query.user({ where: { id } })`. -/
def userById (db : DB) (id : String) : Option User :=
  db.users.find? (fun u => u.id == id)

/-- Prisma query `ctx.db.query.item({ where: { id } })`. -/
def itemById (db : DB) (id : String) : Option Item :=
  db.items.find? (fun it => it.id == id)

/-- Prisma query `ctx.db.query.cartItems({ where: { user: { id }, item: { id } } })`:
all cart items of the given user for the given item. -/
def cartItemsByUserAndItem (db : DB) (userId itemId : String) : List CartItem :=
  db.cartItems.filter (fun ci => ci.userId == userId && ci.itemId == itemId)

/-- Application of one write call by the ORM.  `defaultQuantity` is the
schema default for `CartItem.quantity`, which `createCartItem` relies on
since the resolver passes no quantity. -/
def applyWrite (defaultQuantity : Int) (db : DB) : DbWrite → DB
  | .createUser u => { db with users := db.users ++ [u] }
  | .deleteItem wid => { db with items := db.items.filter (fun it => it.id ≠ wid) }
  | .updateCartItem wid q =>
      { db with cartItems :=
          db.cartItems.map (fun ci => if ci.id = wid then { ci with quantity := q } else ci) }
  | .createCartItem nid uid iid =>
      { db with cartItems := db.cartItems ++ [⟨nid, uid, iid, defaultQuantity⟩] }
  | .updateUserPermissions wid perms =>
      { db with users :=
          db.users.map (fun u => if u.id = wid then { u with permissions := perms } else u) }
  | .updateUserReset wemail tok exp =>
      { db with users :=
          db.users.map (fun u =>
            if u.email = wemail then
              { u with resetToken := some tok, resetTokenExpiry := some exp }
            else u) }
  | .updateUserPassword wemail pw =>
      { db with users :=
          db.users.map (fun u =>
            if u.email = wemail then
              { u with password := pw, resetToken := none, resetTokenExpiry := none }
            else u) }

/-- Application of a list of write calls, in order. -/
def applyWrites (defaultQuantity : Int) (db : DB) (ws : List DbWrite) : DB :=
  ws.foldl (applyWrite defaultQuantity) db

/-- Model of `String.prototype.toLowerCase` restricted to ASCII letters,
as `signup` applies it to the email argument. -/
def jsToLowerChar (c : Char) : Char :=
  if 'A' ≤ c ∧ c ≤ 'Z' then Char.ofNat (c.toNat + 32) else c

/-- Model of `args.email.toLowerCase()`. -/
def jsToLowerCase (s : String) : String :=
  ⟨s.data.map jsToLowerChar⟩

namespace Mutation

/-- The arguments of the `signup` mutation. -/
structure SignupArgs where
  name : String
  email : String
  password : String
deriving Repr, DecidableEq

/-- The user record `signup` creates: the args with the email lowercased,
the `password` key overridden by the bcrypt hash (`{...args, password}`),
and `permissions: { set: ["USER"] }`; the id is assigned by the database. -/
def signupUser (hash : String → Nat → String) (newUserId : String) (args : SignupArgs) : User :=
  { id := newUserId
    name := args.name
    email := jsToLowerCase args.email
    password := hash args.password 10
    permissions := ["USER"]
    resetToken := none
    resetTokenExpiry := none }

/-- `Mutation.signup`: lowercases the email, hashes the password with
bcrypt at 10 salt rounds, creates the user unconditionally (it reads
nothing from the database, so `createUser` is always called), signs a JWT
of the new id with the app secret and sets it as an httpOnly cookie named
`token` with a one-year max age. -/
def signup (hash : String → Nat → String) (sign : String → String → String)
    (appSecret : String) (newUserId : String) (args : SignupArgs) : Outcome User :=
  let user := signupUser hash newUserId args
  let token := sign user.id appSecret
  { res := .ok user
    writes := [.createUser user]
    cookies := [⟨"token", token, true, 1000 * 60 * 60 * 24 * 365⟩] }

/-- `Mutation.signin`: looks the user up by the verbatim email argument,
compares the password with bcrypt, then signs a JWT of the user id and
sets the `token` cookie. -/
def signin (compare : String → String → Bool) (sign : String → String → String)
    (appSecret : String) (db : DB) (email password : String) : Outcome User :=
  match userByEmail db email with
  | none => { res := .error (.thrown ("No such user found for email " ++ email)),
              writes := [], cookies := [] }
  | some user =>
    if !(compare password user.password) then
      { res := .error (.thrown "Invalid password!"), writes := [], cookies := [] }
    else
      { res := .ok user
        writes := []
        cookies := [⟨"token", sign user.id appSecret, true, 1000 * 60 * 60 * 24 * 365⟩] }

/-- `Mutation.deleteItem`: queries the item by id, computes `ownsItem` and
`hasPermissions`, and deletes only when one of them holds.  Fidelity notes:
the code does not guard against the item query returning null, so
`item.user.id` is a null property access when no item matches; and
`ctx.request.user.permissions.some(...)` is evaluated unconditionally, so
it is an undefined property access whenever `ctx.request.user` is absent. -/
def deleteItem (db : DB) (req : Request) (argsId : String) : Outcome Item :=
  match itemById db argsId with
  | none => { res := .error (.nullAccess "item.user"), writes := [], cookies := [] }
  | some it =>
    let ownsItem : Bool := req.userId == some it.userId
    match req.user with
    | none =>
      { res := .error (.nullAccess "ctx.request.user.permissions"),
        writes := [], cookies := [] }
    | some u =>
      let hasPermissions : Bool :=
        u.permissions.any (fun p => ["ADMIN", "ITEMDELETE"].contains p)
      if !ownsItem && !hasPermissions then
        { res := .error (.thrown "You don't have permission to do that!"),
          writes := [], cookies := [] }
      else
        { res := .ok it, writes := [.deleteItem argsId], cookies := [] }

/-- `Mutation.requestReset`: looks the user up by the verbatim email
argument, and on success stamps a reset token and an expiry of
`Date.now() + 3600000` on that user (the mail sending is outside the
database model).  `now` is the value of `Date.now()` during the call and
`resetToken` the hex string produced from `randomBytes(20)`. -/
def requestReset (db : DB) (now : Int) (resetToken : String) (email : String) :
    Outcome String :=
  match userByEmail db email with
  | none => { res := .error (.thrown ("No such user found for email " ++ email)),
              writes := [], cookies := [] }
  | some _ =>
    { res := .ok "Password reset requested!"
      writes := [.updateUserReset email resetToken (now + 3600000)]
      cookies := [] }

/-- The filter `resetPassword` sends to `ctx.db.query.users`: the stored
reset token equals the argument and `resetTokenExpiry_gte: Date.now() - 3600000`. -/
def resetTokenAccepts (tok : String) (now : Int) (u : User) : Bool :=
  u.resetToken == some tok &&
    (match u.resetTokenExpiry with
     | some e => decide (now - 3600000 ≤ e)
     | none => false)

/-- `Mutation.resetPassword`: checks the two passwords match, takes the
first user matching the token-and-expiry filter, hashes the new password
and saves it (clearing the reset fields), then issues the JWT cookie. -/
def resetPassword (hash : String → Nat → String) (sign : String → String → String)
    (appSecret : String) (db : DB) (now : Int)
    (password confirmPassword resetToken : String) : Outcome User :=
  if password ≠ confirmPassword then
    { res := .error (.thrown "Your passwords don't match!"), writes := [], cookies := [] }
  else
    match (db.users.filter (resetTokenAccepts resetToken now)).head? with
    | none =>
      { res := .error (.thrown
          "This token is either invalid or expired - try requesting another password reset."),
        writes := [], cookies := [] }
    | some user =>
      let newPassword := hash password 10
      let updatedUser :=
        { user with password := newPassword, resetToken := none, resetTokenExpiry := none }
      { res := .ok updatedUser
        writes := [.updateUserPassword user.email newPassword]
        cookies := [⟨"token", sign updatedUser.id appSecret, true, 1000 * 60 * 60 * 24 * 365⟩] }

/-- Modelled from the spec: `hasPermission` from `../utils`, which is not
in the source tree — the spec describes it as "a permission-string
membership check before privileged mutations", gating on "user-held
permission strings": it throws unless the user holds at least one of the
permissions needed. -/
def hasPermission (user : User) (permissionsNeeded : List String) : Except JsError Unit :=
  if user.permissions.any (fun p => permissionsNeeded.contains p) then .ok ()
  else .error (.thrown "You do not have sufficient permissions")

/-- The arguments of the `updatePermissions` mutation: the new permission
list and the id of the target user. -/
structure UpdatePermissionsArgs where
  permissions : List String
  userId : String
deriving Repr, DecidableEq

/-- `Mutation.updatePermissions`: requires a logged-in requester, queries
the requester record, runs `hasPermission(currentUser, ["ADMIN", "PERMISSIONUPDATE"])`,
and only then replaces the target user permissions with the given list.
When the requester record query returns null, `hasPermission` reading
`currentUser.permissions` is a null property access. -/
def updatePermissions (db : DB) (req : Request) (args : UpdatePermissionsArgs) :
    Outcome Unit :=
  match req.userId with
  | none => { res := .error (.thrown "You must be logged in!"), writes := [], cookies := [] }
  | some uid =>
    match userById db uid with
    | none =>
      { res := .error (.nullAccess "currentUser.permissions"), writes := [], cookies := [] }
    | some currentUser =>
      match hasPermission currentUser ["ADMIN", "PERMISSIONUPDATE"] with
      | .error e => { res := .error e, writes := [], cookies := [] }
      | .ok _ =>
        { res := .ok ()
          writes := [.updateUserPermissions args.userId args.permissions]
          cookies := [] }

/-- `Mutation.addToCart`: requires a signed-in user, queries the cart
items of that user for the argument item and takes the first; if one
exists it updates its quantity to one more, otherwise it creates a fresh
cart item connecting the user and the item, passing no quantity (the
schema default applies).  `newCartItemId` is the id the database assigns
on creation. -/
def addToCart (db : DB) (req : Request) (argsId : String) (newCartItemId : String) :
    Outcome Unit :=
  match req.userId with
  | none => { res := .error (.thrown "You must be signed in!"), writes := [], cookies := [] }
  | some userId =>
    match (cartItemsByUserAndItem db userId argsId).head? with
    | some existingCartItem =>
      { res := .ok ()
        writes := [.updateCartItem existingCartItem.id (existingCartItem.quantity + 1)]
        cookies := [] }
    | none =>
      { res := .ok ()
        writes := [.createCartItem newCartItemId userId argsId]
        cookies := [] }

/-- Lookup of a key in a JavaScript object modelled as a key-value list. -/
def objGet (o : List (String × String)) (k : String) : Option String :=
  (o.find? (fun kv => kv.1 == k)).map (fun kv => kv.2)

/-- Model of `delete obj.k` on a JavaScript object. -/
def objDelete (o : List (String × String)) (k : String) : List (String × String) :=
  o.filter (fun kv => kv.1 ≠ k)

/-- The payload `updateItem` passes to `ctx.db.mutation.updateItem`. -/
structure UpdateItemCall where
  data : List (String × String)
  whereId : Option String
deriving Repr, DecidableEq

/-- `Mutation.updateItem`: copies the args, deletes the id from the copy,
and calls the database update with that copy as data and the argument id
as the where clause.  The args object is modelled as a key-value list. -/
def updateItem (args : List (String × String)) : UpdateItemCall :=
  let updates := objDelete args "id"
  { data := updates, whereId := objGet args "id" }

end Mutation

/-- Membership form of the `permissions.some(p => [...].includes(p))` check. -/
theorem any_pair_contains_iff (l : List String) (a b : String) :
    (l.any fun p => ([a, b] : List String).contains p) = true ↔ ∃ p ∈ l, p = a ∨ p = b := by
  simp [List.any_eq_true]

/-- When the requester owns the item or holds ADMIN or ITEMDELETE,
`deleteItem` issues the delete call and returns the item. -/
theorem deleteItem_grants (db : DB) (req : Request) (argsId : String) (it : Item) (u : User)
    (hit : itemById db argsId = some it) (hu : req.user = some u)
    (hcond : req.userId = some it.userId ∨ ∃ p ∈ u.permissions, p = "ADMIN" ∨ p = "ITEMDELETE") :
    Mutation.deleteItem db req argsId
      = { res := .ok it, writes := [DbWrite.deleteItem argsId], cookies := [] } := by
  have hg : (!(req.userId == some it.userId)
      && !(u.permissions.any fun p => (["ADMIN", "ITEMDELETE"] : List String).contains p)) = false := by
    rcases hcond with h | h
    · have hb : (req.userId == some it.userId) = true := by
        rw [h]; exact beq_self_eq_true _
      rw [hb]; rfl
    · have hb : (u.permissions.any fun p => (["ADMIN", "ITEMDELETE"] : List String).contains p) = true :=
        (any_pair_contains_iff u.permissions "ADMIN" "ITEMDELETE").mpr h
      rw [hb, Bool.not_true, Bool.and_false]
  simp only [Mutation.deleteItem, hit, hu, hg]
  rfl

/-- When the requester neither owns the item nor holds ADMIN or ITEMDELETE,
`deleteItem` throws the permission error without issuing a write. -/
theorem deleteItem_denies (db : DB) (req : Request) (argsId : String) (it : Item) (u : User)
    (hit : itemById db argsId = some it) (hu : req.user = some u)
    (hnot : ¬(req.userId = some it.userId ∨ ∃ p ∈ u.permissions, p = "ADMIN" ∨ p = "ITEMDELETE")) :
    Mutation.deleteItem db req argsId
      = { res := .error (.thrown "You don't have permission to do that!"),
          writes := [], cookies := [] } := by
  push_neg at hnot
  obtain ⟨h1, h2⟩ := hnot
  have hany : (u.permissions.any fun p => (["ADMIN", "ITEMDELETE"] : List String).contains p) = false := by
    cases hb : (u.permissions.any fun p => (["ADMIN", "ITEMDELETE"] : List String).contains p)
    · rfl
    · obtain ⟨p, hp, hor⟩ := (any_pair_contains_iff u.permissions "ADMIN" "ITEMDELETE").mp hb
      rcases hor with rfl | rfl
      · exact absurd rfl (h2 _ hp).1
      · exact absurd rfl (h2 _ hp).2
  have hbeq : (req.userId == some it.userId) = false := by
    exact beq_eq_false_iff_ne.mpr h1
  have hg : (!(req.userId == some it.userId)
      && !(u.permissions.any fun p => (["ADMIN", "ITEMDELETE"] : List String).contains p)) = true := by
    rw [hbeq, hany]; rfl
  simp only [Mutation.deleteItem, hit, hu, hg]
  rfl

/-- C1: for every signed-in user calling `addToCart`: when a cart item for
that user and item already exists, the resolver issues exactly one
`updateCartItem` call setting the quantity of that row to its old quantity
plus one, so the table keeps its length and only the matching row changes;
when none exists, it issues exactly one `createCartItem` call and the table
grows by exactly that one fresh row carrying the schema default quantity;
the two cases are exclusive, so never both happen. -/
theorem addToCart_increment_or_create (db : DB) (req : Request)
    (uid argsId newId : String) (dq : Int) (hreq : req.userId = some uid) :
    (∀ e, (cartItemsByUserAndItem db uid argsId).head? = some e →
      (Mutation.addToCart db req argsId newId).writes
          = [DbWrite.updateCartItem e.id (e.quantity + 1)] ∧
      (applyWrites dq db (Mutation.addToCart db req argsId newId).writes).cartItems
          = db.cartItems.map
              (fun ci => if ci.id = e.id then { ci with quantity := e.quantity + 1 } else ci) ∧
      (applyWrites dq db (Mutation.addToCart db req argsId newId).writes).cartItems.length
          = db.cartItems.length) ∧
    ((cartItemsByUserAndItem db uid argsId).head? = none →
      (Mutation.addToCart db req argsId newId).writes
          = [DbWrite.createCartItem newId uid argsId] ∧
      (applyWrites dq db (Mutation.addToCart db req argsId newId).writes).cartItems
          = db.cartItems ++ [⟨newId, uid, argsId, dq⟩]) := by
  constructor
  · intro e he
    simp [Mutation.addToCart, hreq, he, applyWrites, applyWrite]
  · intro he
    simp [Mutation.addToCart, hreq, he, applyWrites, applyWrite]

/-- C1 witness: in a database holding one cart item of quantity 2 for the
user and item, a signed-in `addToCart` issues the single update to 3. -/
theorem addToCart_increment_or_create_witness :
    (Mutation.addToCart ⟨[], [], [⟨"c1", "u1", "i1", 2⟩]⟩ ⟨some "u1", none⟩ "i1" "c9").writes
      = [DbWrite.updateCartItem "c1" (2 + 1)] :=
  ((addToCart_increment_or_create ⟨[], [], [⟨"c1", "u1", "i1", 2⟩]⟩ ⟨some "u1", none⟩
      "u1" "i1" "c9" 1 rfl).1 ⟨"c1", "u1", "i1", 2⟩ rfl).1

/-- C2: for a `deleteItem` call on an existing item by a requester whose
user record is populated, the database delete call is issued exactly when
the requester id equals the item owner id or the requester holds ADMIN or
ITEMDELETE; otherwise the resolver throws the permission error, issues no
write, and the database is unchanged. -/
theorem deleteItem_authorization (db : DB) (req : Request) (argsId : String) (dq : Int)
    (it : Item) (u : User) (hit : itemById db argsId = some it) (hu : req.user = some u) :
    ((Mutation.deleteItem db req argsId).writes = [DbWrite.deleteItem argsId]
        ↔ (req.userId = some it.userId ∨ ∃ p ∈ u.permissions, p = "ADMIN" ∨ p = "ITEMDELETE")) ∧
    ((req.userId = some it.userId ∨ ∃ p ∈ u.permissions, p = "ADMIN" ∨ p = "ITEMDELETE") →
      (Mutation.deleteItem db req argsId).res = .ok it) ∧
    (¬(req.userId = some it.userId ∨ ∃ p ∈ u.permissions, p = "ADMIN" ∨ p = "ITEMDELETE") →
      (Mutation.deleteItem db req argsId).res
          = .error (.thrown "You don't have permission to do that!") ∧
      (Mutation.deleteItem db req argsId).writes = [] ∧
      applyWrites dq db (Mutation.deleteItem db req argsId).writes = db) := by
  by_cases hcond : req.userId = some it.userId ∨ ∃ p ∈ u.permissions, p = "ADMIN" ∨ p = "ITEMDELETE"
  · rw [deleteItem_grants db req argsId it u hit hu hcond]
    exact ⟨by simp [hcond], fun _ => rfl, fun hn => absurd hcond hn⟩
  · rw [deleteItem_denies db req argsId it u hit hu hcond]
    exact ⟨by simpa using hcond, fun hc => absurd hc hcond, fun _ => ⟨rfl, rfl, rfl⟩⟩

/-- C2 witness: a signed-in requester who is neither the owner nor
privileged is denied the deletion of an existing item. -/
theorem deleteItem_authorization_witness :
    (Mutation.deleteItem ⟨[], [⟨"i1", "t", "owner"⟩], []⟩
        ⟨some "u2", some ⟨"u2", "n", "e", "p", ["USER"], none, none⟩⟩ "i1").res
      = .error (.thrown "You don't have permission to do that!") :=
  ((deleteItem_authorization ⟨[], [⟨"i1", "t", "owner"⟩], []⟩
      ⟨some "u2", some ⟨"u2", "n", "e", "p", ["USER"], none, none⟩⟩ "i1" 1
      ⟨"i1", "t", "owner"⟩ ⟨"u2", "n", "e", "p", ["USER"], none, none⟩ rfl rfl).2.2
    (by decide)).1

/-- C3: `updatePermissions` throws the logged-in error and writes nothing
for an anonymous requester; for a logged-in requester whose record is
found, the requester permissions are checked for ADMIN or PERMISSIONUPDATE
before any write: on failure no write is issued and the database is
unchanged, and only on success is the single update issued that replaces
the target user permissions by exactly the argument list. -/
theorem updatePermissions_gating (db : DB) (req : Request)
    (args : Mutation.UpdatePermissionsArgs) (dq : Int) :
    (req.userId = none →
      (Mutation.updatePermissions db req args).res = .error (.thrown "You must be logged in!") ∧
      (Mutation.updatePermissions db req args).writes = []) ∧
    (∀ uid cu, req.userId = some uid → userById db uid = some cu →
      (¬(∃ p ∈ cu.permissions, p = "ADMIN" ∨ p = "PERMISSIONUPDATE") →
        (Mutation.updatePermissions db req args).failedThrown = true ∧
        (Mutation.updatePermissions db req args).writes = [] ∧
        applyWrites dq db (Mutation.updatePermissions db req args).writes = db) ∧
      ((∃ p ∈ cu.permissions, p = "ADMIN" ∨ p = "PERMISSIONUPDATE") →
        (Mutation.updatePermissions db req args).writes
            = [DbWrite.updateUserPermissions args.userId args.permissions] ∧
        (∀ tu ∈ (applyWrites dq db (Mutation.updatePermissions db req args).writes).users,
          tu.id = args.userId → tu.permissions = args.permissions))) := by
  constructor
  · intro h
    simp [Mutation.updatePermissions, h]
  · intro uid cu hruid hcu
    constructor
    · intro hno
      have hany : (cu.permissions.any fun p =>
          (["ADMIN", "PERMISSIONUPDATE"] : List String).contains p) = false := by
        cases hb : (cu.permissions.any fun p =>
            (["ADMIN", "PERMISSIONUPDATE"] : List String).contains p)
        · rfl
        · exact absurd ((any_pair_contains_iff cu.permissions "ADMIN" "PERMISSIONUPDATE").mp hb) hno
      have hperm : Mutation.hasPermission cu ["ADMIN", "PERMISSIONUPDATE"]
          = .error (.thrown "You do not have sufficient permissions") := by
        simp only [Mutation.hasPermission, hany]
        rfl
      simp only [Mutation.updatePermissions, hruid, hcu, hperm]
      refine ⟨?_, ?_, ?_⟩ <;> trivial
    · intro hyes
      have hany : (cu.permissions.any fun p =>
          (["ADMIN", "PERMISSIONUPDATE"] : List String).contains p) = true :=
        (any_pair_contains_iff cu.permissions "ADMIN" "PERMISSIONUPDATE").mpr hyes
      have hperm : Mutation.hasPermission cu ["ADMIN", "PERMISSIONUPDATE"] = .ok () := by
        simp only [Mutation.hasPermission, hany]
        rfl
      simp only [Mutation.updatePermissions, hruid, hcu, hperm]
      refine ⟨by trivial, ?_⟩
      intro tu htu htuid
      simp only [applyWrites, applyWrite, List.foldl] at htu
      rw [List.mem_map] at htu
      obtain ⟨u0, hu0, rfl⟩ := htu
      by_cases hid : u0.id = args.userId
      · simp [hid]
      · rw [if_neg hid] at htuid ⊢
        exact absurd htuid hid

/-- C3 witness: an ADMIN requester replaces the target permissions; the
single write issued carries exactly the argument permission list. -/
theorem updatePermissions_gating_witness :
    (Mutation.updatePermissions
        ⟨[⟨"u1", "n", "e", "p", ["ADMIN"], none, none⟩], [], []⟩
        ⟨some "u1", none⟩ ⟨["USER", "ITEMDELETE"], "u2"⟩).writes
      = [DbWrite.updateUserPermissions "u2" ["USER", "ITEMDELETE"]] :=
  (((updatePermissions_gating
      ⟨[⟨"u1", "n", "e", "p", ["ADMIN"], none, none⟩], [], []⟩
      ⟨some "u1", none⟩ ⟨["USER", "ITEMDELETE"], "u2"⟩ 1).2
    "u1" ⟨"u1", "n", "e", "p", ["ADMIN"], none, none⟩ rfl rfl).2 (by decide)).1

/-- C4: the user record `signup` writes carries the bcrypt hash of the
supplied password at 10 salt rounds as its password field, and whenever
the hash differs from the plaintext (as a bcrypt hash always does), the
stored password field is not the plaintext. -/
theorem signup_stores_bcrypt_hash (hash : String → Nat → String)
    (sign : String → String → String) (appSecret newUserId : String)
    (args : Mutation.SignupArgs) (hhash : hash args.password 10 ≠ args.password) :
    (Mutation.signup hash sign appSecret newUserId args).writes
        = [DbWrite.createUser (Mutation.signupUser hash newUserId args)] ∧
    (Mutation.signupUser hash newUserId args).password = hash args.password 10 ∧
    (Mutation.signupUser hash newUserId args).password ≠ args.password :=
  ⟨rfl, rfl, hhash⟩

/-- C4 witness: with a concrete stand-in hash, the stored password is the
hash and not the plaintext. -/
theorem signup_stores_bcrypt_hash_witness :
    ((fun s _ => "$2a$10$" ++ s : String → Nat → String) "pw" 10 ≠ "pw") ∧
    (Mutation.signupUser (fun s _ => "$2a$10$" ++ s) "u1" ⟨"n", "E@x.com", "pw"⟩).password
        = "$2a$10$pw" :=
  ⟨by decide,
   (signup_stores_bcrypt_hash (fun s _ => "$2a$10$" ++ s) (fun _ _ => "jwt") "secret" "u1"
      ⟨"n", "E@x.com", "pw"⟩ (by decide)).2.1⟩

/-- C5: successful `signup` and successful `signin` each set exactly one
cookie, named `token`, httpOnly, with a max age of one year in
milliseconds, whose value is the JWT of the authenticated user id signed
with the app secret, and each returns that user record. -/
theorem auth_sets_token_cookie (hash : String → Nat → String)
    (compare : String → String → Bool) (sign : String → String → String)
    (appSecret newUserId : String) (args : Mutation.SignupArgs)
    (db : DB) (email password : String) (u : User)
    (hfind : userByEmail db email = some u) (hpw : compare password u.password = true) :
    ((Mutation.signup hash sign appSecret newUserId args).cookies
        = [⟨"token", sign (Mutation.signupUser hash newUserId args).id appSecret, true,
            1000 * 60 * 60 * 24 * 365⟩] ∧
     (Mutation.signup hash sign appSecret newUserId args).res
        = .ok (Mutation.signupUser hash newUserId args)) ∧
    ((Mutation.signin compare sign appSecret db email password).cookies
        = [⟨"token", sign u.id appSecret, true, 1000 * 60 * 60 * 24 * 365⟩] ∧
     (Mutation.signin compare sign appSecret db email password).res = .ok u) := by
  refine ⟨⟨rfl, rfl⟩, ?_⟩
  simp only [Mutation.signin, hfind, hpw]
  exact ⟨rfl, rfl⟩

/-- C5 witness: a concrete user signs in with the right password and gets
the signed token cookie. -/
theorem auth_sets_token_cookie_witness :
    (Mutation.signin (fun p s => p == s) (fun uid sec => uid ++ "." ++ sec) "sec"
        ⟨[⟨"u1", "n", "a@b.c", "pw", ["USER"], none, none⟩], [], []⟩ "a@b.c" "pw").cookies
      = [⟨"token", "u1" ++ "." ++ "sec", true, 1000 * 60 * 60 * 24 * 365⟩] :=
  ((auth_sets_token_cookie (fun s _ => s) (fun p s => p == s)
      (fun uid sec => uid ++ "." ++ sec) "sec" "nu" ⟨"n", "e", "p"⟩
      ⟨[⟨"u1", "n", "a@b.c", "pw", ["USER"], none, none⟩], [], []⟩ "a@b.c" "pw"
      ⟨"u1", "n", "a@b.c", "pw", ["USER"], none, none⟩ rfl (by decide)).2).1

/-- C7: `signup` reads nothing from the database and branches on nothing:
for every input, whatever the database holds, it succeeds and issues
exactly the one `createUser` call whose record carries the lowercased
email and the hashed password, so a duplicate email can only be rejected
by the unique constraint inside the database, never by `signup` itself. -/
theorem signup_unconditional_createUser (hash : String → Nat → String)
    (sign : String → String → String) (appSecret newUserId : String)
    (args : Mutation.SignupArgs) :
    (Mutation.signup hash sign appSecret newUserId args).res
        = .ok (Mutation.signupUser hash newUserId args) ∧
    (Mutation.signup hash sign appSecret newUserId args).writes
        = [DbWrite.createUser (Mutation.signupUser hash newUserId args)] ∧
    (Mutation.signupUser hash newUserId args).email = jsToLowerCase args.email ∧
    (Mutation.signupUser hash newUserId args).password = hash args.password 10 :=
  ⟨rfl, rfl, rfl, rfl⟩

/-- C6 counterexample: with no matching item, `deleteItem` fails with the
TypeError from the null property access `item.user`, not with a thrown
Error carrying a message. -/
theorem deleteItem_null_access_on_missing_item :
    (Mutation.deleteItem ⟨[], [], []⟩
        ⟨some "u1", some ⟨"u1", "n", "e", "p", ["ADMIN"], none, none⟩⟩ "i1").res
      = .error (.nullAccess "item.user") ∧
    (Mutation.deleteItem ⟨[], [], []⟩
        ⟨some "u1", some ⟨"u1", "n", "e", "p", ["ADMIN"], none, none⟩⟩ "i1").failedThrown
      = false := by decide

/-- C6 (amended): a `deleteItem` failure raised by its own permission
check is a thrown Error with a human-readable message, but a call whose id
matches no item, or whose requester has no populated user record (not
signed in), fails with an unguarded null or undefined property access
instead of a thrown Error. -/
theorem deleteItem_failure_modes (db : DB) (req : Request) (argsId : String) :
    (itemById db argsId = none →
      (Mutation.deleteItem db req argsId).res = .error (.nullAccess "item.user")) ∧
    (∀ it, itemById db argsId = some it → req.user = none →
      (Mutation.deleteItem db req argsId).res
        = .error (.nullAccess "ctx.request.user.permissions")) ∧
    (∀ it u, itemById db argsId = some it → req.user = some u →
      ∀ e, (Mutation.deleteItem db req argsId).res = .error e →
        e = .thrown "You don't have permission to do that!") := by
  refine ⟨?_, ?_, ?_⟩
  · intro h
    simp only [Mutation.deleteItem, h]
  · intro it hit hnone
    simp only [Mutation.deleteItem, hit, hnone]
  · intro it u hit hu e herr
    by_cases hcond : req.userId = some it.userId ∨ ∃ p ∈ u.permissions, p = "ADMIN" ∨ p = "ITEMDELETE"
    · rw [deleteItem_grants db req argsId it u hit hu hcond] at herr
      exact absurd herr (by simp)
    · rw [deleteItem_denies db req argsId it u hit hu hcond] at herr
      exact (Except.error.inj herr).symm

/-- C6 witness: a signed-in requester without permission gets the thrown
permission error on an existing item, and on a missing item the failure is
the null access. -/
theorem deleteItem_failure_modes_witness :
    (Mutation.deleteItem ⟨[], [], []⟩ ⟨none, none⟩ "i1").res
      = .error (.nullAccess "item.user") :=
  (deleteItem_failure_modes ⟨[], [], []⟩ ⟨none, none⟩ "i1").1 rfl

/-- C8: the payload `updateItem` sends is the argument object with the id
key removed and the where clause is exactly the argument id: every non-id
field is forwarded unchanged and no id field appears in the update data. -/
theorem updateItem_data_omits_id (args : List (String × String)) :
    (Mutation.updateItem args).data = Mutation.objDelete args "id" ∧
    (Mutation.updateItem args).whereId = Mutation.objGet args "id" ∧
    (∀ kv, kv ∈ args → kv.1 ≠ "id" → kv ∈ (Mutation.updateItem args).data) ∧
    (∀ kv, kv ∈ (Mutation.updateItem args).data → kv.1 ≠ "id" ∧ kv ∈ args) := by
  refine ⟨rfl, rfl, ?_, ?_⟩
  · intro kv hkv hne
    simp [Mutation.updateItem, Mutation.objDelete, List.mem_filter, hkv, hne]
  · intro kv hkv
    simp [Mutation.updateItem, Mutation.objDelete, List.mem_filter] at hkv
    exact ⟨hkv.2, hkv.1⟩

/-- C8 witness: the title field survives the id removal on a concrete
argument object. -/
theorem updateItem_data_omits_id_witness :
    ("title", "t") ∈ (Mutation.updateItem [("id", "5"), ("title", "t")]).data :=
  (updateItem_data_omits_id [("id", "5"), ("title", "t")]).2.2.1
    ("title", "t") (by decide) (by decide)

/-- C9: `requestReset` stamps the user with an expiry of the issuance time
plus 3600000 ms, while the `resetPassword` filter accepts any expiry at
least the checking time minus 3600000 ms; hence a user so stamped passes
the filter exactly when the check happens no more than 7200000 ms — two
hours, not one — after issuance. -/
theorem resetToken_two_hour_window (db : DB) (t tCheck : Int) (tok email : String)
    (u : User) (hu : userByEmail db email = some u) :
    (Mutation.requestReset db t tok email).writes
        = [DbWrite.updateUserReset email tok (t + 3600000)] ∧
    (∀ u' : User, u'.resetToken = some tok → u'.resetTokenExpiry = some (t + 3600000) →
      (Mutation.resetTokenAccepts tok tCheck u' = true ↔ tCheck ≤ t + 7200000)) := by
  constructor
  · simp only [Mutation.requestReset, hu]
  · intro u' h1 h2
    simp only [Mutation.resetTokenAccepts, h1, h2, beq_self_eq_true, Bool.true_and,
      decide_eq_true_eq]
    omega

/-- C9 witness: a token stamped at time 0 still passes the filter at time
7200000 and no longer passes at 7200001. -/
theorem resetToken_two_hour_window_witness :
    (Mutation.requestReset ⟨[⟨"u1", "n", "a@b.c", "pw", ["USER"], none, none⟩], [], []⟩
        0 "tk" "a@b.c").writes
      = [DbWrite.updateUserReset "a@b.c" "tk" (0 + 3600000)] :=
  (resetToken_two_hour_window ⟨[⟨"u1", "n", "a@b.c", "pw", ["USER"], none, none⟩], [], []⟩
      0 7200000 "tk" "a@b.c" ⟨"u1", "n", "a@b.c", "pw", ["USER"], none, none⟩ rfl).1

/-- C10: `signup` stores the lowercased email, while `signin` and
`requestReset` query by the verbatim email argument; so after signing up
with an email that is not already lowercase, a lookup with the same
verbatim email finds no user and both mutations throw the no-such-user
error. -/
theorem signup_lowercases_lookups_verbatim (hash : String → Nat → String)
    (compare : String → String → Bool) (sign : String → String → String)
    (appSecret newUserId : String) (args : Mutation.SignupArgs)
    (t : Int) (tok pw : String) (hcase : jsToLowerCase args.email ≠ args.email) :
    (Mutation.signupUser hash newUserId args).email = jsToLowerCase args.email ∧
    userByEmail ⟨[Mutation.signupUser hash newUserId args], [], []⟩ args.email = none ∧
    (Mutation.signin compare sign appSecret
        ⟨[Mutation.signupUser hash newUserId args], [], []⟩ args.email pw).res
      = .error (.thrown ("No such user found for email " ++ args.email)) ∧
    (Mutation.requestReset ⟨[Mutation.signupUser hash newUserId args], [], []⟩
        t tok args.email).res
      = .error (.thrown ("No such user found for email " ++ args.email)) := by
  have hnone : userByEmail ⟨[Mutation.signupUser hash newUserId args], [], []⟩ args.email = none := by
    have hbeq : (jsToLowerCase args.email == args.email) = false :=
      beq_eq_false_iff_ne.mpr hcase
    simp [userByEmail, List.find?_cons, Mutation.signupUser, hbeq]
  refine ⟨rfl, hnone, ?_, ?_⟩
  · simp only [Mutation.signin, hnone]
  · simp only [Mutation.requestReset, hnone]

/-- C10 witness: signing up with `Foo@Bar.com` stores `foo@bar.com`, and a
signin with the verbatim `Foo@Bar.com` finds no user. -/
theorem signup_lowercases_lookups_verbatim_witness :
    (Mutation.signin (fun p s => p == s) (fun u _ => u) "sec"
        ⟨[Mutation.signupUser (fun s _ => s) "u1" ⟨"n", "Foo@Bar.com", "pw"⟩], [], []⟩
        "Foo@Bar.com" "pw").res
      = .error (.thrown ("No such user found for email " ++ "Foo@Bar.com")) :=
  (signup_lowercases_lookups_verbatim (fun s _ => s) (fun p s => p == s) (fun u _ => u)
      "sec" "u1" ⟨"n", "Foo@Bar.com", "pw"⟩ 0 "tk" "pw" (by decide)).2.2.1

end SickFits
